import Mathlib

/-!
Verification of the rainfall ingestion-and-feature pipeline implemented in
src/modelo predictivo/lluvia_processor/src/main.py (class LluviaProcessor).

The Python code is shallowly embedded as executable Lean definitions:

* timestamps are naturals (seconds); calendar dates are integers (days),
  matching the .dt.date truncation of pandas timestamps;
* dataframes are lists of row structures; pandas NaN values are represented
  by Option.none (pd.to_numeric / pd.to_datetime with errors coerce produce
  NaN/NaT, and groupby drops rows whose group keys are NaN);
* percentages are rationals (Python float arithmetic on these small values
  is exact enough that the comparisons in the source coincide with the
  rational ones; int(total * 0.8) equals Nat.div (4 * total) 5 for every
  realistic magnitude of total);
* the Socrata network calls are replaced by explicit per-block outcome
  lists: the list of records that each 1-day block finally yielded after
  its internal retries (a block "fails" exactly when that list is empty,
  see lines 162-177 of the source);
* shapely region polygons are abstract point-membership tests; the union of
  the region polygons contains a point exactly when some member test does.
-/

/-- One raw observation record as used by the pipeline after type coercion:
codigoestacion (stripped string), the calendar date of fechaobservacion,
valorobservado after pd.to_numeric(errors=coerce), latitud/longitud after
pd.to_numeric(errors=coerce), and the two locality fields (None = NaN). -/
structure Obs where
  codigoestacion : String
  fecha : ℤ
  valorobservado : Option ℚ
  latitud : Option ℚ
  longitud : Option ℚ
  municipio : Option String
  departamento : Option String
deriving DecidableEq

/-- One row of the daily-rain table df_lluvia_diaria produced by the
groupby-sum in procesar_lluvia_diaria (lines 405-412). -/
structure DailyRow where
  codigoestacion : String
  fecha : ℤ
  municipio : Option String
  departamento : Option String
  lluvia : ℚ
deriving DecidableEq

/-- One record of the long accumulation table built in
generar_formato_modelo (lines 615-666). -/
structure AccRecord where
  codigo : String
  dias : ℕ
  lluvia : ℚ
  fechaCorte : ℤ
  mpio : Option String
  depto : Option String
deriving DecidableEq

/-- One row of the final wide model table (lines 668-698): columns
codigoestacion, data, daily rain, and the five accumulation columns. -/
structure FeatureRow where
  codigoestacion : String
  data : ℤ
  dailyRain : ℚ
  accum1 : ℚ
  accum2 : ℚ
  accum3 : ℚ
  accum15 : ℚ
  accum30 : ℚ
deriving DecidableEq

/-- Output files the run can write under /app/data/output/lluvia:
the raw-records backup (lines 286-298 and 311-326), and the three files of
guardar_resultados (lines 704-758). -/
inductive OutFile where
  | rawBackup
  | featureCsv
  | latestCsv
  | resumenJson
deriving DecidableEq

/-- Outcome of the whole-run retrieval loop in procesar_datos_completos
(lines 269-334): proceed normally, proceed with degraded coverage
(lines 307-309), or abort by raising. -/
inductive RunDecision where
  | normal
  | degraded
  | aborted
deriving DecidableEq

/-! ### Block scheduler and coverage (obtener_datos_lluvia_masivos) -/

/-- Seconds per day; block_size is 1 day (line 102). -/
def daySecs : ℕ := 86400

/-- Fuel-bounded unfolding of the while-loop of lines 106-179: starting at
current_start = s, emit one block start per iteration and advance by one
day until current_start is at least end_time = e.  The fuel argument only
bounds the recursion; blockStarts supplies enough of it. -/
def blockStartsAux : ℕ → ℕ → ℕ → List ℕ
  | 0, _, _ => []
  | fuel + 1, s, e => if s < e then s :: blockStartsAux fuel (s + daySecs) e else []

/-- Start times of the 1-day blocks scheduled for the range from s to e. -/
def blockStarts (s e : ℕ) : List ℕ := blockStartsAux ((e - s) / daySecs + 1) s e

/-- Number of 1-day blocks the scheduler attempts for the range. -/
def numBlocks (s e : ℕ) : ℕ := (blockStarts s e).length

/-- total_days of line 182: (end_time - start_time).days + 1.  Python
timedelta .days floors, which for natural s ≤ e is Nat division. -/
def daysRequested (s e : ℕ) : ℕ := (e - s) / daySecs + 1

/-- success_percentage of line 184:
((total_days - failed_days) / total_days) * 100 with failed_days =
number of failed blocks times the 1-day block size. -/
def successPct (s e : ℕ) (failedBlocks : ℕ) : ℚ :=
  (((daysRequested s e : ℚ) - (failedBlocks : ℚ)) / (daysRequested s e : ℚ)) * 100

/-- all_data of one whole download attempt: the concatenation of every
final records of each block (failed blocks contribute nothing, line 165). -/
def attemptData (blocks : List (List Obs)) : List Obs := blocks.flatten

/-- Coverage reported by one whole download attempt: a block is counted in
failed_blocks exactly when it yielded no records (lines 163-177). -/
def attemptPct (s e : ℕ) (blocks : List (List Obs)) : ℚ :=
  successPct s e (blocks.countP (fun b => b.isEmpty))

/-- Result of breaking out of the retry loop at an attempt whose coverage
reached min_coverage (lines 283-300): the run proceeds normally, except
that the post-loop check of line 332 aborts when all_data is empty. -/
def stopResult (s e : ℕ) (blocks : List (List Obs)) : RunDecision × List Obs × ℚ :=
  (if attemptData blocks = [] then RunDecision.aborted else RunDecision.normal,
   attemptData blocks, attemptPct s e blocks)

/-- The whole-run retrieval of procesar_datos_completos, lines 269-334:
up to max_complete_retries = 2 extra end-to-end attempts (each after a
10-second sleep, line 277) while coverage is below min_coverage = 70; on
the final attempt, coverage of at least 50 with at least one record
proceeds degraded (lines 307-309), anything else raises (line 330).
The arguments a0 a1 a2 are the per-block outcomes each of the three
potential attempts would retrieve.  Returns the decision together with the
final all_data and the final success_percentage. -/
def procesarDatosDecision (s e : ℕ) (a0 a1 a2 : List (List Obs)) :
    RunDecision × List Obs × ℚ :=
  if 70 ≤ attemptPct s e a0 then stopResult s e a0
  else if 70 ≤ attemptPct s e a1 then stopResult s e a1
  else if 70 ≤ attemptPct s e a2 then stopResult s e a2
  else if 50 ≤ attemptPct s e a2 ∧ attemptData a2 ≠ [] then
    (RunDecision.degraded, attemptData a2, attemptPct s e a2)
  else (RunDecision.aborted, attemptData a2, attemptPct s e a2)

/-! ### Spatial filter (filtrar_region_andina, lines 200-252) -/

/-- The column names of the raw observation dataframe that the pipeline
reads (the fields of the Socrata records that the code uses). -/
def obsCols : List String :=
  ["codigoestacion", "fechaobservacion", "valorobservado", "latitud",
   "longitud", "municipio", "departamento"]

/-- A record has valid coordinates when both latitud and longitud survived
pd.to_numeric(errors=coerce); dropna of line 215 keeps exactly those. -/
def coordsOk (o : Obs) : Bool := o.latitud.isSome && o.longitud.isSome

/-- Point-in-union test of line 233: the Point built from (longitud,
latitud) lies within the union of the region polygons exactly when some
member polygon contains it; rows without coordinates were dropped before
this test.  A polygon is abstracted as its membership test. -/
def withinRegion (region : List ((ℚ × ℚ) → Bool)) (o : Obs) : Bool :=
  match o.longitud, o.latitud with
  | some x, some y => region.any (fun poly => poly (x, y))
  | _, _ => false

/-- Fuel-bounded chunking of lines 222-241: successive slices of n rows.
The fuel only bounds the recursion; chunksOf supplies enough of it. -/
def chunksOfAux : ℕ → ℕ → List Obs → List (List Obs)
  | _, _, [] => []
  | 0, _, l => [l]
  | fuel + 1, n, x :: xs => (x :: xs).take n :: chunksOfAux fuel n ((x :: xs).drop n)

/-- The input split into chunks of n rows (chunk_size = 50000, line 219). -/
def chunksOf (n : ℕ) (l : List Obs) : List (List Obs) := chunksOfAux l.length n l

/-- filtrar_region_andina: coerce coordinates, drop rows without valid
coordinates, filter each 50000-row chunk by containment in the union of
the region polygons, keep the non-empty filtered chunks (line 235), and
concatenate them (line 245); when nothing survives, build an empty frame
whose columns are the input columns plus geometry (line 250).  A non-empty
result also carries the input columns plus the geometry column added by
the GeoDataFrame construction of line 230.  Returns (rows, schema). -/
def filtrarRegionAndina (cols : List String) (region : List ((ℚ × ℚ) → Bool))
    (df : List Obs) : List Obs × List String :=
  let validas := df.filter coordsOk
  let partes := ((chunksOf 50000 validas).map
      (fun c => c.filter (withinRegion region))).filter (fun c => !c.isEmpty)
  if partes.isEmpty then ([], cols ++ ["geometry"])
  else (partes.flatten, cols ++ ["geometry"])

/-! ### Daily aggregation (procesar_lluvia_diaria, lines 390-412) -/

/-- Group key of the groupby of line 409: (codigoestacion, fecha,
municipio, departamento).  Rows whose municipio or departamento is NaN are
dropped by pandas groupby (NaN group keys). -/
def aggKey (o : Obs) : Option (String × ℤ × String × String) :=
  match o.municipio, o.departamento with
  | some m, some d => some (o.codigoestacion, o.fecha, m, d)
  | _, _ => none

/-- The groupby-sum of lines 407-412: one output row per distinct group
key, whose lluvia_diaria is the sum of the parsed valorobservado values of
the group (pandas sum skips NaN). -/
def agruparLluviaDiaria (obs : List Obs) : List DailyRow :=
  ((obs.filterMap aggKey).dedup).map (fun k =>
    { codigoestacion := k.1
      fecha := k.2.1
      municipio := some k.2.2.1
      departamento := some k.2.2.2
      lluvia := ((obs.filter (fun o => aggKey o == some k)).filterMap
        (fun o => o.valorobservado)).sum })

/-! ### Quality gate (control_calidad_datos, lines 467-559) -/

/-- Unique station codes of a daily table (groupby keys). -/
def sensorsOf (df : List DailyRow) : List String :=
  (df.map (fun r => r.codigoestacion)).dedup

/-- Rows of one station. -/
def rowsOf (df : List DailyRow) (s : String) : List DailyRow :=
  df.filter (fun r => r.codigoestacion == s)

/-- fecha nunique of one station (line 476). -/
def distinctDatesOf (df : List DailyRow) (s : String) : ℕ :=
  ((rowsOf df s).map (fun r => r.fecha)).dedup.length

/-- total_dias_disponibles of line 481: number of distinct dates present
anywhere in the daily table. -/
def distinctDates (df : List DailyRow) : ℕ :=
  (df.map (fun r => r.fecha)).dedup.length

/-- umbral_minimo_dias of line 482: int(total_dias_disponibles * 0.8),
which for realistic magnitudes equals the floor of 4 * total / 5. -/
def umbralMinimo (df : List DailyRow) : ℕ := 4 * distinctDates df / 5

/-- df_lluvia_completo of lines 487-501: a row survives rule 1 exactly
when its station has at least umbral_minimo_dias distinct dates in the
incoming daily table. -/
def ruleOneFiltered (df : List DailyRow) : List DailyRow :=
  df.filter (fun r => decide (umbralMinimo df ≤ distinctDatesOf df r.codigoestacion))

/-- Maximum fecha of a daily table; none on an empty table (pandas max of
an empty column is NaN, and line 510 raises before line 515 can see it). -/
def maxFecha : List DailyRow → Option ℤ
  | [] => none
  | r :: rs =>
      some (match maxFecha rs with
            | none => r.fecha
            | some m => max r.fecha m)

/-- ultimos_dias of line 525: pd.date_range(end=M, periods=4), the four
calendar dates ending at the most recent date M. -/
def last4 (M : ℤ) : List ℤ := [M - 3, M - 2, M - 1, M]

/-- df_ultimos4 of line 528. -/
def ultimosRows (df : List DailyRow) (M : ℤ) : List DailyRow :=
  (ruleOneFiltered df).filter (fun r => (last4 M).contains r.fecha)

/-- Rule 2 keeps a station unless it appears in conteo_por_estacion with
fewer than 4 distinct dates (lines 531-539).  A station with no rows at
all among the last 4 dates does not appear in conteo_por_estacion, so it
is not flagged and is kept. -/
def recencyKept (df : List DailyRow) (M : ℤ) (s : String) : Bool :=
  !(decide (1 ≤ distinctDatesOf (ultimosRows df M) s) &&
    decide (distinctDatesOf (ultimosRows df M) s < 4))

/-- df_lluvia_filtrado of line 539. -/
def recencyFiltered (df : List DailyRow) (M : ℤ) : List DailyRow :=
  (ruleOneFiltered df).filter (fun r => recencyKept df M r.codigoestacion)

/-- municipio nunique of one station, counting distinct non-NaN values
(line 544). -/
def nuniqueMunicipio (df : List DailyRow) (s : String) : ℕ :=
  ((rowsOf df s).filterMap (fun r => r.municipio)).dedup.length

/-- departamento nunique of one station (line 544). -/
def nuniqueDepto (df : List DailyRow) (s : String) : ℕ :=
  ((rowsOf df s).filterMap (fun r => r.departamento)).dedup.length

/-- codigos_inconsistentes of lines 544-548. -/
def codigosInconsistentes (df : List DailyRow) : List String :=
  (sensorsOf df).filter
    (fun s => decide (1 < nuniqueMunicipio df s) || decide (1 < nuniqueDepto df s))

/-- The static station registry loaded from the shapefile
estaciones_SAT_revis_nombres.shp: rows of (codigo, mpio_def, depto_def)
with NaN locality values possible.  set_index + to_dict of lines 572-573
keeps the last occurrence of a duplicated codigo. -/
def dictMpio (registry : List (String × Option String × Option String))
    (c : String) : Option String :=
  (registry.reverse.find? (fun ent => ent.1 == c)).bind (fun ent => ent.2.1)

/-- depto_def lookup, last occurrence wins, NaN on a missing codigo. -/
def dictDepto (registry : List (String × Option String × Option String))
    (c : String) : Option String :=
  (registry.reverse.find? (fun ent => ent.1 == c)).bind (fun ent => ent.2.2)

/-- corregir_inconsistencias_localidades, lines 561-589, with the registry
shapefile successfully read: rows of a flagged station get municipio and
departamento replaced by the registry mapping of their codigo (.map gives
NaN when the codigo is absent from the dictionary); all other rows, and
every other field, are untouched, and no row is added or removed. -/
def corregirInconsistenciasLocalidades
    (registry : List (String × Option String × Option String))
    (codigos : List String) (df : List DailyRow) : List DailyRow :=
  df.map (fun r =>
    if codigos.contains r.codigoestacion then
      { r with municipio := dictMpio registry r.codigoestacion
               departamento := dictDepto registry r.codigoestacion }
    else r)

/-- control_calidad_datos, lines 467-559: rule 1 (80 percent of the
distinct dates), the empty/NaT checks of lines 510-520, rule 2 (last four
dates ending at the most recent date of the rule-1 survivors), and the
metadata reconciliation when some station is inconsistent. -/
def controlCalidadDatos (registry : List (String × Option String × Option String))
    (df : List DailyRow) : Except String (List DailyRow) :=
  match maxFecha (ruleOneFiltered df) with
  | none => Except.error "Sin datos despues de control de calidad"
  | some M =>
      if (codigosInconsistentes (recencyFiltered df M)).isEmpty then
        Except.ok (recencyFiltered df M)
      else
        Except.ok (corregirInconsistenciasLocalidades registry
          (codigosInconsistentes (recencyFiltered df M)) (recencyFiltered df M))

/-! ### Feature builder (generar_formato_modelo, lines 591-702) -/

/-- Descending sort by fecha of line 623.  The source uses pandas
sort_values, whose order among equal dates is unspecified; every theorem
below about a station assumes its dates are pairwise distinct, where any
correct sort produces this list. -/
def sortDesc (l : List DailyRow) : List DailyRow :=
  List.insertionSort (fun a b => b.fecha ≤ a.fecha) l

instance sortDescTotal : IsTotal DailyRow (fun a b => b.fecha ≤ a.fecha) :=
  ⟨fun a b => le_total b.fecha a.fecha⟩

instance sortDescTrans : IsTrans DailyRow (fun a b => b.fecha ≤ a.fecha) :=
  ⟨fun _ _ _ hab hbc => le_trans hbc hab⟩

/-- ventanas of line 612. -/
def ventanas : List ℕ := [1, 2, 3, 15, 30]

/-- datos_est of lines 620-623: the rows of the station dated within 29 days of
the most recent date of the whole incoming table (fecha_final of line
602), most recent first. -/
def windowOf (df : List DailyRow) (s : String) : List DailyRow :=
  match maxFecha df with
  | none => []
  | some M => sortDesc ((rowsOf df s).filter (fun r => decide (M - 29 ≤ r.fecha)))

/-- The records appended for one station in the loop of lines 618-666: the
day-0 record, then one accumulation record per window, summing the first
dias rows after excluding day 0; fecha_corte is the row at offset dias, or
the last available row when the sequence is shorter. -/
def recordsFor (df : List DailyRow) (s : String) : List AccRecord :=
  match windowOf df s with
  | [] => []
  | d0 :: resto =>
      { codigo := s, dias := 0, lluvia := d0.lluvia, fechaCorte := d0.fecha,
        mpio := d0.municipio, depto := d0.departamento } ::
      ventanas.map (fun dias =>
        { codigo := s, dias := dias,
          lluvia := ((resto.take dias).map (fun r => r.lluvia)).sum,
          fechaCorte := (((d0 :: resto).get? dias).map (fun r => r.fecha)).getD
            ((d0 :: resto).getLastD d0).fecha,
          mpio := d0.municipio, depto := d0.departamento })

/-- Lookup into the long table used by the pivot of lines 678-682: the
record of one station and one dias value (unique by construction, which is
what lets pandas pivot succeed). -/
def lookupAcc (res : List AccRecord) (s : String) (d : ℕ) : Option AccRecord :=
  res.find? (fun r => r.codigo == s && r.dias == d)

/-- One wide row assembled by the pivot plus the merge of the day-0 fecha
(lines 671-698).  The getD defaults are never reached: every station in
the pivot index owns one record per dias value. -/
def mkFeatureRow (res : List AccRecord) (s : String) : FeatureRow :=
  { codigoestacion := s
    data := ((lookupAcc res s 0).map (fun r => r.fechaCorte)).getD 0
    dailyRain := ((lookupAcc res s 0).map (fun r => r.lluvia)).getD 0
    accum1 := ((lookupAcc res s 1).map (fun r => r.lluvia)).getD 0
    accum2 := ((lookupAcc res s 2).map (fun r => r.lluvia)).getD 0
    accum3 := ((lookupAcc res s 3).map (fun r => r.lluvia)).getD 0
    accum15 := ((lookupAcc res s 15).map (fun r => r.lluvia)).getD 0
    accum30 := ((lookupAcc res s 30).map (fun r => r.lluvia)).getD 0 }

/-- generar_formato_modelo: raises on an empty input (line 596); builds
the long accumulation table by iterating the stations; stations whose
window is empty are skipped (line 625); the pivot and the column selection
of line 698 fail when the long table is empty; otherwise one wide row per
station of the long table. -/
def generarFormatoModelo (df : List DailyRow) : Except String (List FeatureRow) :=
  if df = [] then Except.error "Sin datos para modelo"
  else if (sensorsOf df).flatMap (fun s => recordsFor df s) = [] then
    Except.error "Sin datos para modelo"
  else
    Except.ok (((((sensorsOf df).flatMap (fun s => recordsFor df s)).map
      (fun r => r.codigo)).dedup).map
        (fun s => mkFeatureRow ((sensorsOf df).flatMap (fun s2 => recordsFor df s2)) s))

/-! ### Spec-side definitions (section 4.6 of the specification)

These follow the words of the specification, to be compared with the
definitions above that were translated from the source. -/

/-- Modelled from the spec: the window of one station according to section
4.6, up to the own most recent 30 calendar dates of the station (anchored at
its own latest reporting date), most recent first. -/
def ownWindowSpec (df : List DailyRow) (s : String) : List DailyRow :=
  match maxFecha (rowsOf df s) with
  | none => []
  | some m => sortDesc ((rowsOf df s).filter (fun r => decide (m - 29 ≤ r.fecha)))

/-- Modelled from the spec: the descending-date sequence of one surviving
station from which day 0 and the accumulations are read. -/
def sensorSeq (df : List DailyRow) (s : String) : List DailyRow := ownWindowSpec df s

/-- Modelled from the spec: daily_rain is the DailyTotal value at day 0,
the most recent date of the sequence of the station. -/
def specDailyRain (df : List DailyRow) (s : String) : ℚ :=
  (((sensorSeq df s).head?).map (fun r => r.lluvia)).getD 0

/-- Modelled from the spec: accum_h is the sum of the DailyTotal values of
the h rows immediately following day 0 in the descending-date sequence
(day 0 excluded; fewer rows are summed when the sequence is shorter). -/
def specAccum (df : List DailyRow) (s : String) (h : ℕ) : ℚ :=
  (((((sensorSeq df s).drop 1).take h)).map (fun r => r.lluvia)).sum

/-! ### Whole pipeline (procesar_datos_completos plus main, lines 254-425
and 766-790) -/

/-- procesar_lluvia_diaria, lines 390-425: daily aggregation, quality
gate, then the model format. -/
def procesarLluviaDiaria (registry : List (String × Option String × Option String))
    (obs : List Obs) : Except String (List FeatureRow) :=
  match controlCalidadDatos registry (agruparLluviaDiaria obs) with
  | Except.error m => Except.error m
  | Except.ok gated => generarFormatoModelo gated

/-- One whole run: the retrieval loop with its coverage gate, the raw
backup written as soon as an attempt is accepted (lines 286-298 and
311-326; the backup write fails harmlessly when all_data is empty), the
spatial filter, daily aggregation, quality gate and feature builder, and
finally guardar_resultados (lines 704-758) writing the dated csv, the
latest csv and the json summary.  Returns the outcome together with the
list of output files the run wrote. -/
def ejecutarPipeline (s e : ℕ) (region : List ((ℚ × ℚ) → Bool))
    (registry : List (String × Option String × Option String))
    (a0 a1 a2 : List (List Obs)) :
    Except String (List FeatureRow) × List OutFile :=
  let r := procesarDatosDecision s e a0 a1 a2
  if r.1 = RunDecision.aborted then
    (Except.error "Cobertura de datos insuficiente", [])
  else
    let files := if r.2.1 = [] then ([] : List OutFile) else [OutFile.rawBackup]
    match procesarLluviaDiaria registry
        ((filtrarRegionAndina obsCols region r.2.1).1) with
    | Except.error m => (Except.error m, files)
    | Except.ok table =>
        (Except.ok table,
         files ++ [OutFile.featureCsv, OutFile.latestCsv, OutFile.resumenJson])
/-! ### Concrete inputs used by witnesses, counterexamples and the bug
exhibit -/

/-- A daily row with fixed locality and one unit of rain. -/
def mkDaily (s : String) (d : ℤ) : DailyRow :=
  { codigoestacion := s, fecha := d, municipio := some "M",
    departamento := some "D", lluvia := 1 }

/-- The four-day scenario of the specification: one station A001
reporting on 4 consecutive days with values 10, 0, 5, 2 (most recent
first). -/
def df4 : List DailyRow :=
  [{ codigoestacion := "A001", fecha := 3, municipio := some "M",
     departamento := some "D", lluvia := 10 },
   { codigoestacion := "A001", fecha := 2, municipio := some "M",
     departamento := some "D", lluvia := 0 },
   { codigoestacion := "A001", fecha := 1, municipio := some "M",
     departamento := some "D", lluvia := 5 },
   { codigoestacion := "A001", fecha := 0, municipio := some "M",
     departamento := some "D", lluvia := 2 }]

/-- A daily table on which the quality gate misbehaves: station A reports
on days 0..14 and 26 (16 distinct dates), station B on days 0..14, 26 and
27..30 (20 distinct dates).  The threshold is 4 * 20 / 5 = 16, so both
stations pass rule 1; the last four dates ending at the maximum 30 are
27..30, where B has all four rows and A has none at all, so rule 2 keeps
both stations. -/
def exDfGate : List DailyRow :=
  ((List.range 15).map (fun i => mkDaily "A" (i : ℤ)) ++ [mkDaily "A" 26]) ++
  ((List.range 15).map (fun i => mkDaily "B" (i : ℤ)) ++
   [mkDaily "B" 26, mkDaily "B" 27, mkDaily "B" 28, mkDaily "B" 29, mkDaily "B" 30])

/-- A well-behaved daily table: one station S on 4 consecutive days. -/
def dfW : List DailyRow :=
  [mkDaily "S" 0, mkDaily "S" 1, mkDaily "S" 2, mkDaily "S" 3]

/-- An observation with full data, parameterised by date and municipio. -/
def mkObs (s : String) (d : ℤ) (m : String) : Obs :=
  { codigoestacion := s, fecha := d, valorobservado := some 1,
    latitud := some 1, longitud := some 1,
    municipio := some m, departamento := some "D" }

/-- Two observations of one station on one date that disagree on the
municipio. -/
def ex7 : List Obs := [mkObs "S" 0 "X", mkObs "S" 0 "Y"]

/-- An observation whose coordinates fail numeric parsing. -/
def exObsBad : Obs :=
  { codigoestacion := "S", fecha := 0, valorobservado := some 1,
    latitud := none, longitud := none, municipio := some "M",
    departamento := some "D" }

/-- A region test accepting every point. -/
def exPoly : (ℚ × ℚ) → Bool := fun _ => true

/-- Per-block outcomes of one download attempt for a range scheduled into
6 blocks: every block yields one record, so no block fails and coverage is
100; the observations cover days 0, 2, 4, 6, 8 only.  The resulting daily
table passes rule 1 (5 of 5 distinct dates) but the station has only 2 of
the last 4 dates 5..8, so rule 2 empties the table and the feature builder
raises, after the raw backup was already written. -/
def a8 : List (List Obs) :=
  [[mkObs "S" 0 "M"], [mkObs "S" 2 "M"], [mkObs "S" 4 "M"],
   [mkObs "S" 6 "M"], [mkObs "S" 8 "M"], [mkObs "S" 8 "M"]]

/-- End of the pipeline window used with a8: 5 days plus one second, which
the scheduler splits into 6 one-day blocks and reports as 6 requested
days. -/
def e8 : ℕ := 5 * daySecs + 1

/-- Per-block outcomes whose unique block yields one record out of a
2-block schedule: coverage 50 on every attempt, so the run ends degraded. -/
def aHalf : List (List Obs) := [[mkObs "S" 0 "M"], []]

/-- A station registry holding only station X. -/
def exRegistry : List (String × Option String × Option String) :=
  [("X", some "MX", some "DX")]

/-! ## Theorems -/

/-! ### Scheduler arithmetic -/

theorem blockStartsAux_length (fuel : ℕ) : ∀ s e : ℕ, e - s ≤ fuel * daySecs →
    (blockStartsAux fuel s e).length = (e - s + daySecs - 1) / daySecs := by
  induction fuel with
  | zero =>
      intro s e h
      simp only [blockStartsAux, List.length_nil]
      simp only [daySecs] at h ⊢
      omega
  | succ n ih =>
      intro s e h
      simp only [blockStartsAux]
      by_cases hse : s < e
      · simp only [if_pos hse, List.length_cons]
        rw [ih (s + daySecs) e (by simp only [daySecs] at h ⊢; omega)]
        simp only [daySecs] at h ⊢
        omega
      · simp only [if_neg hse, List.length_nil]
        simp only [daySecs]
        omega

theorem numBlocks_eq_ceil (s e : ℕ) :
    numBlocks s e = (e - s + daySecs - 1) / daySecs := by
  unfold numBlocks blockStarts
  apply blockStartsAux_length
  simp only [daySecs]
  omega

theorem numBlocks_pos (s e : ℕ) (h : s < e) : 1 ≤ numBlocks s e := by
  rw [numBlocks_eq_ceil]
  simp only [daySecs]
  omega

theorem daysRequested_le (s e : ℕ) : daysRequested s e ≤ numBlocks s e + 1 := by
  rw [numBlocks_eq_ceil]
  unfold daysRequested
  simp only [daySecs]
  omega

theorem successPct_all_failed_le_50 (s e : ℕ) (hse : s < e) :
    successPct s e (numBlocks s e) ≤ 50 := by
  have hB := numBlocks_pos s e hse
  have hD := daysRequested_le s e
  have hD1 : 1 ≤ daysRequested s e := Nat.le_add_left 1 _
  unfold successPct
  have hDpos : (0 : ℚ) < (daysRequested s e : ℚ) := by exact_mod_cast hD1
  rw [div_mul_eq_mul_div, div_le_iff₀ hDpos]
  rcases le_or_lt (daysRequested s e) (numBlocks s e) with hDB | hBD
  · have h1 : ((daysRequested s e : ℚ) - (numBlocks s e : ℚ)) ≤ 0 := by
      have : (daysRequested s e : ℚ) ≤ (numBlocks s e : ℚ) := by exact_mod_cast hDB
      linarith
    have h2 : ((daysRequested s e : ℚ) - (numBlocks s e : ℚ)) * 100 ≤ 0 :=
      mul_nonpos_of_nonpos_of_nonneg h1 (by norm_num)
    have h3 : (0 : ℚ) ≤ 50 * (daysRequested s e : ℚ) := by positivity
    linarith
  · have hDeq : daysRequested s e = numBlocks s e + 1 := by omega
    have hq : (daysRequested s e : ℚ) = (numBlocks s e : ℚ) + 1 := by
      exact_mod_cast hDeq
    have hBq : (1 : ℚ) ≤ (numBlocks s e : ℚ) := by exact_mod_cast hB
    rw [hq]
    ring_nf
    nlinarith

theorem attemptPct_le_50_of_empty (s e : ℕ) (blocks : List (List Obs)) (hse : s < e)
    (hlen : blocks.length = numBlocks s e) (hnil : attemptData blocks = []) :
    attemptPct s e blocks ≤ 50 := by
  have hall : ∀ b ∈ blocks, b.isEmpty = true := by
    intro b hb
    unfold attemptData at hnil
    rw [List.isEmpty_iff]
    rw [List.flatten_eq_nil_iff] at hnil
    exact hnil b hb
  have hcount : blocks.countP (fun b => b.isEmpty) = blocks.length :=
    List.countP_eq_length.mpr hall
  unfold attemptPct
  rw [hcount, hlen]
  exact successPct_all_failed_le_50 s e hse

theorem stopResult_of_high (s e : ℕ) (blocks : List (List Obs)) (hse : s < e)
    (hlen : blocks.length = numBlocks s e) (hge : 70 ≤ attemptPct s e blocks) :
    stopResult s e blocks =
      (RunDecision.normal, attemptData blocks, attemptPct s e blocks) ∧
    attemptData blocks ≠ [] := by
  have hne : attemptData blocks ≠ [] := by
    intro hn
    have := attemptPct_le_50_of_empty s e blocks hse hlen hn
    linarith
  unfold stopResult
  rw [if_neg hne]
  exact ⟨rfl, hne⟩

/-! ### Claim C4: block count and coverage formula -/

/-- C4, counterexample.  The claim states that for every valid requested
time range the number of scheduled 1-day blocks equals days_requested.
For the exactly-2-day range this fails: the scheduler runs 2 blocks while
the code computes days_requested = (end - start).days + 1 = 3. -/
theorem C4_counterexample :
    0 < 2 * daySecs ∧ numBlocks 0 (2 * daySecs) = 2 ∧
    daysRequested 0 (2 * daySecs) = 3 ∧
    numBlocks 0 (2 * daySecs) ≠ daysRequested 0 (2 * daySecs) := by
  refine ⟨by decide, ?_, by decide, ?_⟩ <;> decide

/-- C4 (amended).  For every valid range, the scheduler runs the ceiling
of the range length in days many 1-day blocks; this equals days_requested
exactly when the length is not a whole multiple of one day, and is one
less than days_requested when it is; the reported coverage is always
(days_requested - failed_blocks * 1 day) / days_requested * 100 with
failed blocks being those that retrieved no records. -/
theorem C4_blocks_and_coverage (s e : ℕ) (hse : s < e) :
    ((e - s) % daySecs ≠ 0 → numBlocks s e = daysRequested s e) ∧
    ((e - s) % daySecs = 0 → numBlocks s e + 1 = daysRequested s e) ∧
    ∀ blocks : List (List Obs),
      attemptPct s e blocks =
        ((daysRequested s e : ℚ) - (blocks.countP (fun b => b.isEmpty) : ℚ)) /
          (daysRequested s e : ℚ) * 100 := by
  refine ⟨?_, ?_, fun blocks => rfl⟩
  · intro hnd
    rw [numBlocks_eq_ceil]
    unfold daysRequested
    simp only [daySecs] at *
    omega
  · intro hd
    rw [numBlocks_eq_ceil]
    unfold daysRequested
    simp only [daySecs] at *
    omega

/-- C4, witness: on a range one second longer than a whole day the two
quantities agree (2 blocks, 2 requested days). -/
theorem C4_witness :
    0 < daySecs + 1 ∧ (daySecs + 1 - 0) % daySecs ≠ 0 ∧
    numBlocks 0 (daySecs + 1) = daysRequested 0 (daySecs + 1) :=
  ⟨by decide, by decide, (C4_blocks_and_coverage 0 (daySecs + 1) (by decide)).1
    (by decide)⟩

/-! ### Claim C3: coverage-tiered run decision -/

/-- C3.  After the whole-run retrieval (retried end-to-end at most 2
additional times while coverage is below 70), the run proceeds normally
exactly when the final coverage is at least 70, proceeds degraded exactly
when the final coverage is in [50, 70) and at least one record was
retrieved, and aborts exactly when the final coverage is below 50 or zero
records were retrieved; an aborted run writes no output files at all. -/
theorem C3_coverage_tiers (s e : ℕ) (a0 a1 a2 : List (List Obs)) (hse : s < e)
    (h0 : a0.length = numBlocks s e) (h1 : a1.length = numBlocks s e)
    (h2 : a2.length = numBlocks s e) :
    ((procesarDatosDecision s e a0 a1 a2).1 = RunDecision.normal ↔
      70 ≤ (procesarDatosDecision s e a0 a1 a2).2.2) ∧
    ((procesarDatosDecision s e a0 a1 a2).1 = RunDecision.degraded ↔
      (50 ≤ (procesarDatosDecision s e a0 a1 a2).2.2 ∧
       (procesarDatosDecision s e a0 a1 a2).2.2 < 70 ∧
       (procesarDatosDecision s e a0 a1 a2).2.1 ≠ [])) ∧
    ((procesarDatosDecision s e a0 a1 a2).1 = RunDecision.aborted ↔
      ((procesarDatosDecision s e a0 a1 a2).2.2 < 50 ∨
       (procesarDatosDecision s e a0 a1 a2).2.1 = [])) ∧
    ((procesarDatosDecision s e a0 a1 a2).1 = RunDecision.aborted →
      ∀ (region : List ((ℚ × ℚ) → Bool))
        (registry : List (String × Option String × Option String)),
        (ejecutarPipeline s e region registry a0 a1 a2).2 = []) := by
  have hfiles : (procesarDatosDecision s e a0 a1 a2).1 = RunDecision.aborted →
      ∀ (region : List ((ℚ × ℚ) → Bool))
        (registry : List (String × Option String × Option String)),
        (ejecutarPipeline s e region registry a0 a1 a2).2 = [] := by
    intro hab region registry
    unfold ejecutarPipeline
    simp only [hab, if_true]
  have hchar :
      (∃ d p, procesarDatosDecision s e a0 a1 a2 = (RunDecision.normal, d, p) ∧
        70 ≤ p ∧ d ≠ []) ∨
      (∃ d p, procesarDatosDecision s e a0 a1 a2 = (RunDecision.degraded, d, p) ∧
        50 ≤ p ∧ p < 70 ∧ d ≠ []) ∨
      (∃ d p, procesarDatosDecision s e a0 a1 a2 = (RunDecision.aborted, d, p) ∧
        (p < 50 ∨ d = []) ∧ p < 70 ∧ ¬(50 ≤ p ∧ d ≠ [])) := by
    unfold procesarDatosDecision
    by_cases hA : 70 ≤ attemptPct s e a0
    · rcases stopResult_of_high s e a0 hse h0 hA with ⟨hstop, hne⟩
      exact Or.inl ⟨attemptData a0, attemptPct s e a0,
        by simp only [if_pos hA, hstop], hA, hne⟩
    · simp only [if_neg hA]
      by_cases hB : 70 ≤ attemptPct s e a1
      · rcases stopResult_of_high s e a1 hse h1 hB with ⟨hstop, hne⟩
        exact Or.inl ⟨attemptData a1, attemptPct s e a1,
          by simp only [if_pos hB, hstop], hB, hne⟩
      · simp only [if_neg hB]
        by_cases hC : 70 ≤ attemptPct s e a2
        · rcases stopResult_of_high s e a2 hse h2 hC with ⟨hstop, hne⟩
          exact Or.inl ⟨attemptData a2, attemptPct s e a2,
            by simp only [if_pos hC, hstop], hC, hne⟩
        · simp only [if_neg hC]
          by_cases hD : 50 ≤ attemptPct s e a2 ∧ attemptData a2 ≠ []
          · exact Or.inr (Or.inl ⟨attemptData a2, attemptPct s e a2,
              by simp only [if_pos hD], hD.1, lt_of_not_le hC, hD.2⟩)
          · refine Or.inr (Or.inr ⟨attemptData a2, attemptPct s e a2,
              by simp only [if_neg hD], ?_, lt_of_not_le hC, hD⟩)
            rcases not_and_or.mp hD with h | h
            · exact Or.inl (lt_of_not_le h)
            · exact Or.inr (not_not.mp h)
  rcases hchar with ⟨d, p, heq, h70, hne⟩ | ⟨d, p, heq, h50, h70, hne⟩ |
    ⟨d, p, heq, habort, h70, hnd⟩
  · rw [heq]
    refine ⟨⟨fun _ => h70, fun _ => rfl⟩, ?_, ?_, ?_⟩
    · constructor
      · intro h; exact RunDecision.noConfusion h
      · rintro ⟨-, hlt, -⟩; exact absurd h70 (not_le.mpr hlt)
    · constructor
      · intro h; exact RunDecision.noConfusion h
      · rintro (hlt | hnil)
        · exact absurd h70 (not_le.mpr (by linarith))
        · exact absurd hnil hne
    · intro h; exact RunDecision.noConfusion h
  · rw [heq]
    refine ⟨?_, ⟨fun _ => ⟨h50, h70, hne⟩, fun _ => rfl⟩, ?_, ?_⟩
    · constructor
      · intro h; exact RunDecision.noConfusion h
      · intro h; exact absurd h (not_le.mpr h70)
    · constructor
      · intro h; exact RunDecision.noConfusion h
      · rintro (hlt | hnil)
        · exact absurd h50 (not_le.mpr hlt)
        · exact absurd hnil hne
    · intro h; exact RunDecision.noConfusion h
  · rw [heq] at hfiles ⊢
    refine ⟨?_, ?_, ⟨fun _ => habort, fun _ => rfl⟩, fun _ => hfiles rfl⟩
    · constructor
      · intro h; exact RunDecision.noConfusion h
      · intro h; exact absurd h (not_le.mpr h70)
    · constructor
      · intro h; exact RunDecision.noConfusion h
      · rintro ⟨ha, -, hb⟩; exact absurd ⟨ha, hb⟩ hnd

/-- C3, witness: a 2-block range where every attempt retrieves one record
in one block and nothing in the other, giving 50 percent coverage on the
final attempt; the run proceeds degraded. -/
theorem C3_witness :
    0 < daySecs + 1 ∧ aHalf.length = numBlocks 0 (daySecs + 1) ∧
    (procesarDatosDecision 0 (daySecs + 1) aHalf aHalf aHalf).1 =
      RunDecision.degraded ∧
    ((procesarDatosDecision 0 (daySecs + 1) aHalf aHalf aHalf).1 =
        RunDecision.degraded ↔
      (50 ≤ (procesarDatosDecision 0 (daySecs + 1) aHalf aHalf aHalf).2.2 ∧
       (procesarDatosDecision 0 (daySecs + 1) aHalf aHalf aHalf).2.2 < 70 ∧
       (procesarDatosDecision 0 (daySecs + 1) aHalf aHalf aHalf).2.1 ≠ [])) := by
  have hc : (aHalf.countP (fun b => b.isEmpty)) = 1 := by decide
  have hd : daysRequested 0 (daySecs + 1) = 2 := by decide
  have hp : attemptPct 0 (daySecs + 1) aHalf = 50 := by
    unfold attemptPct successPct
    rw [hc, hd]
    norm_num
  have hdec : (procesarDatosDecision 0 (daySecs + 1) aHalf aHalf aHalf).1 =
      RunDecision.degraded := by
    unfold procesarDatosDecision
    rw [hp]
    rw [if_neg (by norm_num), if_neg (by norm_num), if_neg (by norm_num),
      if_pos ⟨by norm_num, by decide⟩]
  exact ⟨by decide, by decide, hdec,
    (C3_coverage_tiers 0 (daySecs + 1) aHalf aHalf aHalf (by decide) (by decide)
      (by decide) (by decide)).2.1⟩

/-! ### Claim C6: spatial filter degenerate cases -/

theorem chunksOfAux_mem_mem (fuel n : ℕ) : ∀ (l c : List Obs),
    c ∈ chunksOfAux fuel n l → ∀ x ∈ c, x ∈ l := by
  induction fuel with
  | zero =>
      intro l c hc x hx
      match l with
      | [] => simp [chunksOfAux] at hc
      | y :: ys =>
          simp only [chunksOfAux, List.mem_singleton] at hc
          exact hc ▸ hx
  | succ m ih =>
      intro l c hc x hx
      match l with
      | [] => simp [chunksOfAux] at hc
      | y :: ys =>
          simp only [chunksOfAux, List.mem_cons] at hc
          rcases hc with hc | hc
          · exact List.mem_of_mem_take (hc ▸ hx)
          · exact List.mem_of_mem_drop (ih _ c hc x hx)

/-- C6, counterexample.  The claim states that in the degenerate cases the
filter returns an empty result carrying the same schema as the input.  On
an input whose single row fails coordinate parsing the result is indeed
empty and nothing is raised, but its schema is the input columns plus the
geometry column added by the GeoDataFrame construction (source line 250),
not the input schema itself. -/
theorem C6_counterexample :
    (∀ o ∈ [exObsBad], coordsOk o = false) ∧
    (filtrarRegionAndina obsCols [exPoly] [exObsBad]).1 = [] ∧
    (filtrarRegionAndina obsCols [exPoly] [exObsBad]).2 ≠ obsCols := by
  refine ⟨by decide, by decide, by decide⟩

/-- C6 (amended).  The spatial filter is a total function, and whenever no
region polygon loads or every input row fails numeric coordinate parsing
it returns an empty row set carrying the input schema plus the geometry
column (the schema every non-empty result carries as well), rather than
raising an error. -/
theorem C6_degenerate_empty (cols : List String)
    (region : List ((ℚ × ℚ) → Bool)) (df : List Obs)
    (h : region = [] ∨ ∀ o ∈ df, coordsOk o = false) :
    filtrarRegionAndina cols region df = ([], cols ++ ["geometry"]) := by
  unfold filtrarRegionAndina
  rcases h with hreg | hbad
  · subst hreg
    have hfalse : ∀ o : Obs, withinRegion [] o = false := by
      intro o
      unfold withinRegion
      cases o.longitud <;> cases o.latitud <;> simp
    have hparts : ((chunksOf 50000 (df.filter coordsOk)).map
        (fun c => c.filter (withinRegion []))).filter (fun c => !c.isEmpty) = [] := by
      rw [List.filter_eq_nil_iff]
      intro c hc
      rw [List.mem_map] at hc
      rcases hc with ⟨c0, _, rfl⟩
      have hnil : c0.filter (withinRegion []) = [] := by
        rw [List.filter_eq_nil_iff]
        intro o _
        simp [hfalse o]
      simp [hnil]
    simp only [hparts, List.isEmpty_nil, if_true]
  · have hval : df.filter coordsOk = [] := by
      rw [List.filter_eq_nil_iff]
      intro o ho
      simp [hbad o ho]
    rw [hval]
    simp only [chunksOf, List.length_nil, chunksOfAux, List.map_nil,
      List.filter_nil, List.isEmpty_nil, if_true]

/-- C6, witness: the amended statement at a concrete unparseable input and
a non-empty region. -/
theorem C6_witness :
    (∀ o ∈ [exObsBad], coordsOk o = false) ∧
    filtrarRegionAndina obsCols [exPoly] [exObsBad] =
      ([], obsCols ++ ["geometry"]) :=
  ⟨by decide, C6_degenerate_empty obsCols [exPoly] [exObsBad] (Or.inr (by decide))⟩

/-! ### Claim C7: daily aggregation key uniqueness -/

/-- C7, counterexample.  The claim states that the aggregator output has
at most one row per (sensor_id, calendar_date).  Two observations of one
station on one date that disagree on municipio produce two output rows for
that pair, because the group key also contains municipio and departamento. -/
theorem C7_counterexample :
    ¬ ((agruparLluviaDiaria ex7).map
        (fun r => (r.codigoestacion, r.fecha))).Nodup ∧
    ((agruparLluviaDiaria ex7).map (fun r => (r.codigoestacion, r.fecha))) =
      [("S", 0), ("S", 0)] := by
  refine ⟨by decide, by decide⟩

/-- C7 (amended).  The aggregator output has at most one row per unique
(sensor_id, calendar_date, municipality, department) group key; at most
one row per (sensor_id, date) therefore holds exactly when each station
reports a single locality per date. -/
theorem C7_group_key_unique (obs : List Obs) :
    ((agruparLluviaDiaria obs).map
      (fun r => (r.codigoestacion, r.fecha, r.municipio, r.departamento))).Nodup := by
  unfold agruparLluviaDiaria
  rw [List.map_map]
  apply List.Nodup.map _ (List.nodup_dedup _)
  intro k1 k2 hk
  rcases k1 with ⟨a1, b1, c1, d1⟩
  rcases k2 with ⟨a2, b2, c2, d2⟩
  simp only [Function.comp, Prod.mk.injEq, Option.some.injEq] at hk
  simp [Prod.mk.injEq, hk.1, hk.2.1, hk.2.2.1, hk.2.2.2]

/-! ### Claim C10: reconciliation with a registry-absent station -/

/-- C10.  A station flagged as inconsistent whose code is absent from the
registry mapping gets every municipio and departamento field of its rows
overwritten with NaN (the pandas .map of a missing key), not left as it
was; and the reconciliation never adds or removes rows nor touches the
station code, date or rain value of any row. -/
theorem C10_registry_missing
    (registry : List (String × Option String × Option String))
    (codigos : List String) (df : List DailyRow) (s : String)
    (hflag : codigos.contains s = true)
    (habs : ∀ ent ∈ registry, ent.1 ≠ s) :
    (corregirInconsistenciasLocalidades registry codigos df).length = df.length ∧
    (∀ r ∈ corregirInconsistenciasLocalidades registry codigos df,
      r.codigoestacion = s → r.municipio = none ∧ r.departamento = none) ∧
    ((corregirInconsistenciasLocalidades registry codigos df).map
        (fun r => (r.codigoestacion, r.fecha, r.lluvia)) =
      df.map (fun r => (r.codigoestacion, r.fecha, r.lluvia))) := by
  have hdict : registry.reverse.find? (fun ent => ent.1 == s) = none := by
    rw [List.find?_eq_none]
    intro ent hent hp
    exact habs ent (List.mem_reverse.mp hent) (eq_of_beq hp)
  refine ⟨by simp [corregirInconsistenciasLocalidades], ?_, ?_⟩
  · intro r hr hrs
    unfold corregirInconsistenciasLocalidades at hr
    rw [List.mem_map] at hr
    rcases hr with ⟨r0, hr0, rfl⟩
    by_cases hin : codigos.contains r0.codigoestacion
    · simp only [if_pos hin] at hrs ⊢
      have hcode : r0.codigoestacion = s := hrs
      subst hcode
      unfold dictMpio dictDepto
      rw [hdict]
      simp
    · simp only [if_neg hin] at hrs ⊢
      rw [hrs] at hin
      exact absurd hflag hin
  · unfold corregirInconsistenciasLocalidades
    rw [List.map_map]
    apply List.map_congr_left
    intro r _
    by_cases hin : r.codigoestacion ∈ codigos <;> simp [hin]

/-- C10, witness: a flagged station S absent from a registry holding only
station X. -/
theorem C10_witness :
    (["S"].contains "S" = true) ∧ (∀ ent ∈ exRegistry, ent.1 ≠ "S") ∧
    ((corregirInconsistenciasLocalidades exRegistry ["S"] dfW).length =
        dfW.length ∧
     (∀ r ∈ corregirInconsistenciasLocalidades exRegistry ["S"] dfW,
        r.codigoestacion = "S" → r.municipio = none ∧ r.departamento = none) ∧
     ((corregirInconsistenciasLocalidades exRegistry ["S"] dfW).map
          (fun r => (r.codigoestacion, r.fecha, r.lluvia)) =
        dfW.map (fun r => (r.codigoestacion, r.fecha, r.lluvia)))) :=
  ⟨by decide, by decide,
   C10_registry_missing exRegistry ["S"] dfW "S" (by decide) (by decide)⟩

/-! ### Claim C2: what the quality gate actually guarantees -/

theorem corregir_shape (registry : List (String × Option String × Option String))
    (codigos : List String) (df : List DailyRow) :
    ∀ r ∈ corregirInconsistenciasLocalidades registry codigos df,
      ∃ r0 ∈ df, r.codigoestacion = r0.codigoestacion ∧ r.fecha = r0.fecha := by
  intro r hr
  unfold corregirInconsistenciasLocalidades at hr
  rw [List.mem_map] at hr
  rcases hr with ⟨r0, hr0, rfl⟩
  refine ⟨r0, hr0, ?_, ?_⟩ <;>
    by_cases hin : r0.codigoestacion ∈ codigos <;> simp [hin]

theorem last4_nodup (M : ℤ) : (last4 M).Nodup := by
  simp [last4]

theorem mem_last4_of_contains {M : ℤ} {x : ℤ}
    (h : (last4 M).contains x = true) : x ∈ last4 M := by
  simpa using h

set_option maxRecDepth 10000 in
/-- C2, counterexample.  The claim states that every station in the gate
output has at least the floor of 0.8 times the ingestion-window length
many distinct dates and rows on all of the last 4 dates ending at the
global maximum.  On exDfGate, whose dates all lie in the 31-day window
0..30, station A is in the output with only 16 distinct dates (16 < 24,
the floor of 0.8 times 31) and with no row at all on the last 4 dates
27..30 ending at the global maximum 30. -/
theorem C2_counterexample :
    controlCalidadDatos [] exDfGate = Except.ok exDfGate ∧
    (∀ r ∈ exDfGate, 0 ≤ r.fecha ∧ r.fecha ≤ 30) ∧
    (∃ r ∈ exDfGate, r.codigoestacion = "A") ∧
    distinctDatesOf exDfGate "A" = 16 ∧
    ¬ (4 * 31 / 5 ≤ distinctDatesOf exDfGate "A") ∧
    maxFecha (ruleOneFiltered exDfGate) = some 30 ∧
    (¬ ∃ r ∈ exDfGate, r.codigoestacion = "A" ∧ r.fecha = 30) := by
  exact ⟨rfl, by decide, by decide, by decide, by decide, by decide, by decide⟩

/-- C2 (amended).  Every station present in the quality-gate output has at
least umbral_minimo_dias = floor of 0.8 times the number of distinct dates
present in the incoming daily table (not the ingestion-window length) many
distinct dates, and, writing M for the most recent date of the rule-1
survivors, it has rows either on all of the last 4 dates ending at M or on
none of them (a station with no rows in that range escapes the rule-2
exclusion). -/
theorem C2_quality_gate
    (registry : List (String × Option String × Option String))
    (df out : List DailyRow) (s : String)
    (hok : controlCalidadDatos registry df = Except.ok out)
    (hs : ∃ r ∈ out, r.codigoestacion = s) :
    umbralMinimo df ≤ distinctDatesOf df s ∧
    ∀ M : ℤ, maxFecha (ruleOneFiltered df) = some M →
      ((∀ d ∈ last4 M, ∃ r ∈ ruleOneFiltered df,
          r.codigoestacion = s ∧ r.fecha = d) ∨
       (∀ r ∈ ruleOneFiltered df, r.codigoestacion = s → r.fecha ∉ last4 M)) := by
  unfold controlCalidadDatos at hok
  split at hok
  · exact absurd hok (by simp)
  · rename_i M0 hM0
    have hbase : ∃ r1 ∈ recencyFiltered df M0, r1.codigoestacion = s := by
        rcases hs with ⟨r, hr, hrs⟩
        split at hok
        · have hout := Except.ok.inj hok
          exact ⟨r, hout ▸ hr, hrs⟩
        · have hout := Except.ok.inj hok
          rcases corregir_shape registry (codigosInconsistentes (recencyFiltered df M0))
              (recencyFiltered df M0) r (hout ▸ hr) with ⟨r0, hr0, hcode, -⟩
          exact ⟨r0, hr0, hcode ▸ hrs⟩
    rcases hbase with ⟨r1, hr1, hr1s⟩
    unfold recencyFiltered at hr1
    rcases List.mem_filter.mp hr1 with ⟨hr1rule, hr1kept⟩
    rw [hr1s] at hr1kept
    have hrule1 : umbralMinimo df ≤ distinctDatesOf df s := by
      rcases List.mem_filter.mp hr1rule with ⟨-, hdec⟩
      rw [hr1s] at hdec
      exact of_decide_eq_true hdec
    refine ⟨hrule1, ?_⟩
    intro M hM
    rw [hM0] at hM
    have hMM0 : M = M0 := (Option.some.inj hM).symm
    subst hMM0
    have hkp : ¬ (1 ≤ distinctDatesOf (ultimosRows df M) s ∧
        distinctDatesOf (ultimosRows df M) s < 4) := by
      rintro ⟨h1, h2⟩
      unfold recencyKept at hr1kept
      rw [decide_eq_true h1, decide_eq_true h2] at hr1kept
      simp at hr1kept
    rcases Nat.lt_or_ge (distinctDatesOf (ultimosRows df M) s) 4 with h4 | h4
    · have hc0 : distinctDatesOf (ultimosRows df M) s = 0 := by omega
      right
      intro r hr hrs2 hmemlast
      have hrult : r ∈ ultimosRows df M := by
        unfold ultimosRows
        refine List.mem_filter.mpr ⟨hr, ?_⟩
        simpa using hmemlast
      have hrrow : r ∈ rowsOf (ultimosRows df M) s :=
        List.mem_filter.mpr ⟨hrult, by rw [hrs2]; exact beq_self_eq_true s⟩
      have : r.fecha ∈ ((rowsOf (ultimosRows df M) s).map
          (fun r2 => r2.fecha)).dedup :=
        List.mem_dedup.mpr (List.mem_map_of_mem _ hrrow)
      have hpos : 0 < distinctDatesOf (ultimosRows df M) s :=
        List.length_pos.mpr (List.ne_nil_of_mem this)
      omega
    · left
      have hsub : ∀ x ∈ ((rowsOf (ultimosRows df M) s).map
          (fun r2 => r2.fecha)).dedup, x ∈ last4 M := by
        intro x hx
        rw [List.mem_dedup, List.mem_map] at hx
        rcases hx with ⟨r, hr, rfl⟩
        have hrult := (List.mem_filter.mp hr).1
        have hcont := (List.mem_filter.mp hrult).2
        exact mem_last4_of_contains hcont
      have hfin : ((rowsOf (ultimosRows df M) s).map
          (fun r2 => r2.fecha)).dedup.toFinset = (last4 M).toFinset := by
        apply Finset.eq_of_subset_of_card_le
        · intro x hx
          exact List.mem_toFinset.mpr (hsub x (List.mem_toFinset.mp hx))
        · have h1 : ((rowsOf (ultimosRows df M) s).map
              (fun r2 => r2.fecha)).dedup.toFinset.card =
              distinctDatesOf (ultimosRows df M) s :=
            List.toFinset_card_of_nodup (List.nodup_dedup _)
          have h2 : (last4 M).toFinset.card ≤ 4 :=
            le_trans (List.toFinset_card_le _) (by simp [last4])
          omega
      intro d hd
      have hdl : d ∈ ((rowsOf (ultimosRows df M) s).map
          (fun r2 => r2.fecha)).dedup := by
        rw [← List.mem_toFinset, hfin]
        exact List.mem_toFinset.mpr hd
      rw [List.mem_dedup, List.mem_map] at hdl
      rcases hdl with ⟨r, hr, hrd⟩
      have hrult := (List.mem_filter.mp hr).1
      have hrs3 : r.codigoestacion = s := eq_of_beq (List.mem_filter.mp hr).2
      exact ⟨r, (List.mem_filter.mp hrult).1, hrs3, hrd⟩

/-- C2, witness: the amended statement at a well-behaved 4-day table. -/
theorem C2_witness :
    controlCalidadDatos [] dfW = Except.ok dfW ∧
    (∃ r ∈ dfW, r.codigoestacion = "S") ∧
    (umbralMinimo dfW ≤ distinctDatesOf dfW "S" ∧
     ∀ M : ℤ, maxFecha (ruleOneFiltered dfW) = some M →
       ((∀ d ∈ last4 M, ∃ r ∈ ruleOneFiltered dfW,
           r.codigoestacion = "S" ∧ r.fecha = d) ∨
        (∀ r ∈ ruleOneFiltered dfW, r.codigoestacion = "S" →
           r.fecha ∉ last4 M))) :=
  ⟨rfl, by decide, C2_quality_gate [] dfW dfW "S" rfl (by decide)⟩

/-! ### Claim C5: the window of the feature builder -/

theorem maxFecha_le {df : List DailyRow} {M : ℤ} (h : maxFecha df = some M) :
    ∀ r ∈ df, r.fecha ≤ M := by
  induction df generalizing M with
  | nil => intro r hr; simp at hr
  | cons a l ih =>
      intro r hr
      simp only [maxFecha] at h
      rcases List.mem_cons.mp hr with hra | hrl
      · subst hra
        match hml : maxFecha l with
        | none => simp [hml] at h; omega
        | some m => simp [hml] at h; omega
      · match hml : maxFecha l with
        | none =>
            rcases l with _ | ⟨b, l2⟩
            · simp at hrl
            · simp [maxFecha] at hml
        | some m =>
            have := ih hml r hrl
            simp [hml] at h
            omega

theorem maxFecha_mem {df : List DailyRow} {M : ℤ} (h : maxFecha df = some M) :
    ∃ r ∈ df, r.fecha = M := by
  induction df generalizing M with
  | nil => simp [maxFecha] at h
  | cons a l ih =>
      simp only [maxFecha] at h
      match hml : maxFecha l with
      | none =>
          simp only [hml, Option.some.injEq] at h
          exact ⟨a, List.mem_cons_self a l, by omega⟩
      | some m =>
          simp only [hml, Option.some.injEq] at h
          rcases max_cases a.fecha m with ⟨heq, _⟩ | ⟨heq, _⟩
          · exact ⟨a, List.mem_cons_self a l, by omega⟩
          · rcases ih hml with ⟨r, hr, hrm⟩
            exact ⟨r, List.mem_cons_of_mem a hr, by omega⟩

theorem maxFecha_of_mem_of_le {df : List DailyRow} {M : ℤ}
    (hmem : ∃ r ∈ df, r.fecha = M) (hle : ∀ r ∈ df, r.fecha ≤ M) :
    maxFecha df = some M := by
  induction df with
  | nil => rcases hmem with ⟨r, hr, _⟩; simp at hr
  | cons a l ih =>
      simp only [maxFecha]
      have hma : a.fecha ≤ M := hle a (List.mem_cons_self a l)
      match hml : maxFecha l with
      | none =>
          have hlnil : l = [] := by
            rcases l with _ | ⟨b, l2⟩
            · rfl
            · exact absurd hml (by simp only [maxFecha]; exact Option.some_ne_none _)
          subst hlnil
          rcases hmem with ⟨r, hr, hrM⟩
          simp only [List.mem_singleton] at hr
          subst hr
          simp [hrM]
      | some m =>
          have hmM : m ≤ M := by
            rcases maxFecha_mem hml with ⟨r, hr, hrm⟩
            exact hrm ▸ hle r (List.mem_cons_of_mem a hr)
          rcases hmem with ⟨r, hr, hrM⟩
          rcases List.mem_cons.mp hr with hra | hrl
          · subst hra
            simp only [Option.some.injEq]
            rw [hrM] at hma ⊢
            omega
          · have : M ≤ m := hrM ▸ maxFecha_le hml r hrl
            simp only [Option.some.injEq]
            omega

theorem windowOf_eq_own (df : List DailyRow) (s : String)
    (h : ∃ r ∈ df, r.codigoestacion = s ∧ maxFecha df = some r.fecha) :
    windowOf df s = ownWindowSpec df s := by
  rcases h with ⟨rM, hrMdf, hrMs, hMax⟩
  have hrow : rM ∈ rowsOf df s :=
    List.mem_filter.mpr ⟨hrMdf, by rw [hrMs]; exact beq_self_eq_true s⟩
  have hle : ∀ r ∈ rowsOf df s, r.fecha ≤ rM.fecha := by
    intro r hr
    exact maxFecha_le hMax r (List.mem_filter.mp hr).1
  have hown : maxFecha (rowsOf df s) = some rM.fecha :=
    maxFecha_of_mem_of_le ⟨rM, hrow, rfl⟩ hle
  unfold windowOf ownWindowSpec
  rw [hMax, hown]

set_option maxRecDepth 10000 in
/-- C5, counterexample.  The claim states that the feature builder selects
the window of each surviving station as its own most recent up-to-30
calendar dates.  Station A survives the quality gate on exDfGate, yet the
window computed for it (rows dated at least the table-wide maximum 30
minus 29 = 1) drops its oldest row, dated 0, while its own most recent 30
calendar dates anchored at its own latest date 26 keep all 16 rows. -/
theorem C5_counterexample :
    controlCalidadDatos [] exDfGate = Except.ok exDfGate ∧
    (∃ r ∈ exDfGate, r.codigoestacion = "A") ∧
    (windowOf exDfGate "A").length = 15 ∧
    (ownWindowSpec exDfGate "A").length = 16 ∧
    windowOf exDfGate "A" ≠ ownWindowSpec exDfGate "A" := by
  exact ⟨rfl, by decide, by decide, by decide, by decide⟩

/-- C5 (amended).  The feature builder anchors the window of every station at
the most recent date of the whole gated table, not at its own
latest date; for a station that has a row on that global most recent date
(what the recency rule is meant to guarantee) the two windows coincide,
so the selected window is the own most recent up-to-30 calendar dates of
the station, sorted descending. -/
theorem C5_window (df : List DailyRow) (s : String)
    (h : ∃ r ∈ df, r.codigoestacion = s ∧ maxFecha df = some r.fecha) :
    windowOf df s = ownWindowSpec df s :=
  windowOf_eq_own df s h

/-- C5, witness: on the well-behaved 4-day table the two windows agree. -/
theorem C5_witness :
    (∃ r ∈ dfW, r.codigoestacion = "S" ∧ maxFecha dfW = some r.fecha) ∧
    windowOf dfW "S" = ownWindowSpec dfW "S" :=
  ⟨by decide, C5_window dfW "S" (by decide)⟩

/-! ### Claim C9: the anchor date of the feature table -/

set_option maxRecDepth 10000 in
/-- C9.  The claim states that all rows of a successfully produced feature
table carry one shared anchor date, the global most recent date of the
quality-gated data, because the recency rule forces every surviving
station to have a row on that date.  The gate accepts exDfGate unchanged,
although station A has no row in the last-4 window at all (the rule-2
count only flags stations that appear in that window), and the feature
builder then produces a table whose rows carry the two different anchor
dates 26 and 30.  The gate thus contradicts its own docstring (source
lines 469-471), which states that stations lacking any of the last 4 days
of records are removed. -/
theorem C9_anchor_bug :
    controlCalidadDatos [] exDfGate = Except.ok exDfGate ∧
    (generarFormatoModelo exDfGate).toOption.isSome = true ∧
    ∃ r1 ∈ (generarFormatoModelo exDfGate).toOption.getD [],
      ∃ r2 ∈ (generarFormatoModelo exDfGate).toOption.getD [],
        r1.data = 26 ∧ r2.data = 30 ∧ r1.data ≠ r2.data := by
  exact ⟨rfl, by decide, by decide⟩

/-! ### Claim C1: daily rain and the accumulation columns -/

theorem recordsFor_codigo (df : List DailyRow) (s : String) :
    ∀ rec ∈ recordsFor df s, rec.codigo = s := by
  intro rec hrec
  unfold recordsFor at hrec
  cases hwin : windowOf df s with
  | nil => rw [hwin] at hrec; simp at hrec
  | cons d0 resto =>
      rw [hwin] at hrec
      rcases List.mem_cons.mp hrec with h | h
      · rw [h]
      · rw [List.mem_map] at h
        rcases h with ⟨d, -, rfl⟩
        rfl

theorem find?_flatMap_none (df : List DailyRow) (s : String) (d : ℕ)
    (l : List String) (hnot : s ∉ l) :
    (l.flatMap (fun s2 => recordsFor df s2)).find?
      (fun r => r.codigo == s && r.dias == d) = none := by
  induction l with
  | nil => rfl
  | cons a t ih =>
      rw [List.flatMap_cons, List.find?_append]
      have ha : (recordsFor df a).find?
          (fun r => r.codigo == s && r.dias == d) = none := by
        rw [List.find?_eq_none]
        intro x hx hc
        rw [Bool.and_eq_true] at hc
        have hxa := recordsFor_codigo df a x hx
        have has : a = s := by rw [← hxa]; exact eq_of_beq hc.1
        exact hnot (List.mem_cons.mpr (Or.inl has.symm))
      rw [ha]
      simp only [Option.none_or]
      exact ih (fun hm => hnot (List.mem_cons_of_mem a hm))

theorem lookupAcc_flatMap (df : List DailyRow) (s : String) (d : ℕ)
    (l : List String) (hnd : l.Nodup) (hs : s ∈ l) :
    (l.flatMap (fun s2 => recordsFor df s2)).find?
        (fun r => r.codigo == s && r.dias == d) =
      (recordsFor df s).find? (fun r => r.codigo == s && r.dias == d) := by
  induction l with
  | nil => simp at hs
  | cons a t ih =>
      rw [List.flatMap_cons, List.find?_append]
      rcases List.mem_cons.mp hs with heq | hst
      · subst heq
        cases hf : (recordsFor df s).find?
            (fun r => r.codigo == s && r.dias == d) with
        | some v => rfl
        | none =>
            simp only [Option.none_or]
            exact find?_flatMap_none df s d t (List.nodup_cons.mp hnd).1
      · have ha : (recordsFor df a).find?
            (fun r => r.codigo == s && r.dias == d) = none := by
          rw [List.find?_eq_none]
          intro x hx hc
          rw [Bool.and_eq_true] at hc
          have hxa := recordsFor_codigo df a x hx
          have has : a = s := by rw [← hxa]; exact eq_of_beq hc.1
          exact (List.nodup_cons.mp hnd).1 (has ▸ hst)
        rw [ha]
        simp only [Option.none_or]
        exact ih (List.nodup_cons.mp hnd).2 hst

theorem windowOf_head_max (df : List DailyRow) (s : String) {rM : DailyRow}
    (hrMdf : rM ∈ df) (hrMs : rM.codigoestacion = s)
    (hMax : maxFecha df = some rM.fecha)
    (hnodup : ((rowsOf df s).map (fun r => r.fecha)).Nodup)
    {d0 : DailyRow} {resto : List DailyRow}
    (hW : windowOf df s = d0 :: resto) : d0 = rM := by
  have hrow : rM ∈ rowsOf df s :=
    List.mem_filter.mpr ⟨hrMdf, by rw [hrMs]; exact beq_self_eq_true s⟩
  have hle : ∀ r ∈ rowsOf df s, r.fecha ≤ rM.fecha := fun r hr =>
    maxFecha_le hMax r (List.mem_filter.mp hr).1
  unfold windowOf at hW
  rw [hMax] at hW
  have hW2 : List.insertionSort (fun a b => b.fecha ≤ a.fecha)
      ((rowsOf df s).filter (fun r => decide (rM.fecha - 29 ≤ r.fecha))) =
      d0 :: resto := hW
  have hperm : List.Perm
      (List.insertionSort (fun a b => b.fecha ≤ a.fecha)
        ((rowsOf df s).filter (fun r => decide (rM.fecha - 29 ≤ r.fecha))))
      ((rowsOf df s).filter (fun r => decide (rM.fecha - 29 ≤ r.fecha))) :=
    List.perm_insertionSort _ _
  rw [hW2] at hperm
  have hd0f : d0 ∈ (rowsOf df s).filter
      (fun r => decide (rM.fecha - 29 ≤ r.fecha)) :=
    hperm.subset (List.mem_cons_self d0 resto)
  have hrMf : rM ∈ (rowsOf df s).filter
      (fun r => decide (rM.fecha - 29 ≤ r.fecha)) :=
    List.mem_filter.mpr ⟨hrow, decide_eq_true (by omega)⟩
  have hrMW : rM ∈ d0 :: resto := hperm.symm.subset hrMf
  have hsorted : List.Sorted (fun a b => b.fecha ≤ a.fecha) (d0 :: resto) := by
    rw [← hW2]
    exact List.sorted_insertionSort _ _
  rcases List.mem_cons.mp hrMW with h | h
  · exact h.symm
  · have h1 : rM.fecha ≤ d0.fecha := (List.sorted_cons.mp hsorted).1 rM h
    have h2 : d0.fecha ≤ rM.fecha := hle d0 (List.mem_filter.mp hd0f).1
    exact List.inj_on_of_nodup_map hnodup (List.mem_filter.mp hd0f).1 hrow
      (by omega)


set_option maxRecDepth 20000 in
/-- C1, counterexample.  The claim states that for every surviving sensor
accum_h is the sum of the h rows immediately following day 0 in the
descending-date sequence of the sensor (section 4.6 of the
specification).  Station A survives the quality gate on exDfGate, but
because the feature builder anchors its window at the global maximum 30
(line 620), the row dated 0 is dropped: the produced accum_15 sums only
the 14 remaining rows (value 14), while the sum over the 15 rows after
day 0 of the sequence of the sensor is 15. -/
theorem C1_counterexample :
    controlCalidadDatos [] exDfGate = Except.ok exDfGate ∧
    specAccum exDfGate "A" 15 = 15 ∧
    ∃ t, generarFormatoModelo exDfGate = Except.ok t ∧
      ∃ row ∈ t, row.codigoestacion = "A" ∧ row.accum15 = 14 ∧
        row.accum15 ≠ specAccum exDfGate "A" 15 := by
  have hseqA : sensorSeq exDfGate "A" =
      [mkDaily "A" 26,
       mkDaily "A" 14,
       mkDaily "A" 13,
       mkDaily "A" 12,
       mkDaily "A" 11,
       mkDaily "A" 10,
       mkDaily "A" 9,
       mkDaily "A" 8,
       mkDaily "A" 7,
       mkDaily "A" 6,
       mkDaily "A" 5,
       mkDaily "A" 4,
       mkDaily "A" 3,
       mkDaily "A" 2,
       mkDaily "A" 1,
       mkDaily "A" 0] := by decide
  have hspec : specAccum exDfGate "A" 15 = 15 := by
    unfold specAccum
    rw [hseqA]
    show (List.map (fun r => r.lluvia)
      [mkDaily "A" 14,
       mkDaily "A" 13,
       mkDaily "A" 12,
       mkDaily "A" 11,
       mkDaily "A" 10,
       mkDaily "A" 9,
       mkDaily "A" 8,
       mkDaily "A" 7,
       mkDaily "A" 6,
       mkDaily "A" 5,
       mkDaily "A" 4,
       mkDaily "A" 3,
       mkDaily "A" 2,
       mkDaily "A" 1,
       mkDaily "A" 0]).sum = 15
    simp only [mkDaily, List.map_cons, List.map_nil, List.sum_cons,
      List.sum_nil]
    norm_num
  have h15 : lookupAcc ((sensorsOf exDfGate).flatMap
      (fun s2 => recordsFor exDfGate s2)) "A" 15 =
      some { codigo := "A", dias := 15,
             lluvia := (List.map (fun r => r.lluvia)
               [mkDaily "A" 14,
       mkDaily "A" 13,
       mkDaily "A" 12,
       mkDaily "A" 11,
       mkDaily "A" 10,
       mkDaily "A" 9,
       mkDaily "A" 8,
       mkDaily "A" 7,
       mkDaily "A" 6,
       mkDaily "A" 5,
       mkDaily "A" 4,
       mkDaily "A" 3,
       mkDaily "A" 2,
       mkDaily "A" 1]).sum,
             fechaCorte := 1, mpio := some "M", depto := some "D" } := by
    rfl
  have h14 : (mkFeatureRow ((sensorsOf exDfGate).flatMap
      (fun s2 => recordsFor exDfGate s2)) "A").accum15 = 14 := by
    show ((lookupAcc ((sensorsOf exDfGate).flatMap
      (fun s2 => recordsFor exDfGate s2)) "A" 15).map
        (fun r => r.lluvia)).getD 0 = 14
    rw [h15]
    show (List.map (fun r => r.lluvia)
      [mkDaily "A" 14,
       mkDaily "A" 13,
       mkDaily "A" 12,
       mkDaily "A" 11,
       mkDaily "A" 10,
       mkDaily "A" 9,
       mkDaily "A" 8,
       mkDaily "A" 7,
       mkDaily "A" 6,
       mkDaily "A" 5,
       mkDaily "A" 4,
       mkDaily "A" 3,
       mkDaily "A" 2,
       mkDaily "A" 1]).sum = 14
    simp only [mkDaily, List.map_cons, List.map_nil, List.sum_cons,
      List.sum_nil]
    norm_num
  have hcodes : ((((sensorsOf exDfGate).flatMap
      (fun s2 => recordsFor exDfGate s2)).map (fun r => r.codigo)).dedup) =
      ["A", "B"] := by decide
  have hgen : generarFormatoModelo exDfGate = Except.ok
      [mkFeatureRow ((sensorsOf exDfGate).flatMap
        (fun s2 => recordsFor exDfGate s2)) "A",
       mkFeatureRow ((sensorsOf exDfGate).flatMap
        (fun s2 => recordsFor exDfGate s2)) "B"] := by
    unfold generarFormatoModelo
    rw [if_neg (by decide : ¬ exDfGate = [])]
    rw [if_neg (by decide :
      ¬ ((sensorsOf exDfGate).flatMap (fun s => recordsFor exDfGate s)) = [])]
    rw [hcodes]
    rfl
  refine ⟨rfl, hspec, _, hgen,
    mkFeatureRow ((sensorsOf exDfGate).flatMap
      (fun s2 => recordsFor exDfGate s2)) "A",
    List.mem_cons_self _ _, rfl, h14, ?_⟩
  rw [h14, hspec]
  norm_num

/-- C1 (amended).  For a surviving station that has a row on the global
most recent date of the gated table (what the recency rule intends for
every survivor, though its loophole admits stations without one) and one
row per date, the feature builder sets daily rain to the DailyTotal value
of the most recent date of the station, and each accumulation column
accum_h to the sum of the values of the h rows immediately following
day 0 in the descending-date sequence of the station, day 0 excluded and
short histories summing only the available rows. -/
theorem C1_feature_values (df : List DailyRow) (s : String)
    (hmax : ∃ r ∈ df, r.codigoestacion = s ∧ maxFecha df = some r.fecha)
    (hnodup : ((rowsOf df s).map (fun r => r.fecha)).Nodup) :
    ∀ t, generarFormatoModelo df = Except.ok t →
      (∃ row ∈ t, row.codigoestacion = s) ∧
      ∀ row ∈ t, row.codigoestacion = s →
        row.dailyRain = specDailyRain df s ∧
        (∀ rM ∈ df, rM.codigoestacion = s → maxFecha df = some rM.fecha →
          row.dailyRain = rM.lluvia) ∧
        row.accum1 = specAccum df s 1 ∧
        row.accum2 = specAccum df s 2 ∧
        row.accum3 = specAccum df s 3 ∧
        row.accum15 = specAccum df s 15 ∧
        row.accum30 = specAccum df s 30 := by
  intro t ht
  rcases hmax with ⟨rM, hrMdf, hrMs, hMax⟩
  have hwin_eq : windowOf df s = ownWindowSpec df s :=
    windowOf_eq_own df s ⟨rM, hrMdf, hrMs, hMax⟩
  have hrMwin : rM ∈ windowOf df s := by
    unfold windowOf
    rw [hMax]
    exact (List.perm_insertionSort _ _).symm.subset
      (List.mem_filter.mpr
        ⟨List.mem_filter.mpr ⟨hrMdf, by rw [hrMs]; exact beq_self_eq_true s⟩,
         decide_eq_true (by omega)⟩)
  obtain ⟨d0, resto, hW⟩ : ∃ d0 resto, windowOf df s = d0 :: resto := by
    cases hw : windowOf df s with
    | nil => rw [hw] at hrMwin; simp at hrMwin
    | cons a b => exact ⟨a, b, rfl⟩
  have hd0 : d0 = rM := windowOf_head_max df s hrMdf hrMs hMax hnodup hW
  have hssens : s ∈ sensorsOf df := by
    unfold sensorsOf
    exact List.mem_dedup.mpr (hrMs ▸ List.mem_map_of_mem _ hrMdf)
  have hrecs : recordsFor df s =
      { codigo := s, dias := 0, lluvia := d0.lluvia, fechaCorte := d0.fecha,
        mpio := d0.municipio, depto := d0.departamento } ::
      ventanas.map (fun dias =>
        { codigo := s, dias := dias,
          lluvia := ((resto.take dias).map (fun r => r.lluvia)).sum,
          fechaCorte := (((d0 :: resto).get? dias).map (fun r => r.fecha)).getD
            ((d0 :: resto).getLastD d0).fecha,
          mpio := d0.municipio, depto := d0.departamento }) := by
    unfold recordsFor
    rw [hW]
  have hrec0mem : AccRecord.mk s 0 d0.lluvia d0.fecha d0.municipio
      d0.departamento ∈
      (sensorsOf df).flatMap (fun s2 => recordsFor df s2) := by
    refine List.mem_flatMap.mpr ⟨s, hssens, ?_⟩
    rw [hrecs]
    exact List.mem_cons_self _ _
  have hres_ne : (sensorsOf df).flatMap (fun s2 => recordsFor df s2) ≠ [] :=
    List.ne_nil_of_mem hrec0mem
  have ht2 : t = ((((sensorsOf df).flatMap (fun s2 => recordsFor df s2)).map
      (fun r => r.codigo)).dedup).map
        (fun s2 => mkFeatureRow
          ((sensorsOf df).flatMap (fun s3 => recordsFor df s3)) s2) := by
    unfold generarFormatoModelo at ht
    rw [if_neg (List.ne_nil_of_mem hrMdf), if_neg hres_ne] at ht
    exact (Except.ok.inj ht).symm
  have hlookup : ∀ d : ℕ,
      lookupAcc ((sensorsOf df).flatMap (fun s2 => recordsFor df s2)) s d =
        (recordsFor df s).find? (fun r => r.codigo == s && r.dias == d) :=
    fun d => lookupAcc_flatMap df s d (sensorsOf df) (List.nodup_dedup _) hssens
  have h0 : lookupAcc ((sensorsOf df).flatMap (fun s2 => recordsFor df s2)) s 0 =
      some { codigo := s, dias := 0, lluvia := d0.lluvia, fechaCorte := d0.fecha,
             mpio := d0.municipio, depto := d0.departamento } := by
    rw [hlookup 0, hrecs]
    exact List.find?_cons_of_pos _ (by simp)
  have hacc : ∀ d : ℕ, d ∈ ventanas →
      lookupAcc ((sensorsOf df).flatMap (fun s2 => recordsFor df s2)) s d =
      some { codigo := s, dias := d,
             lluvia := ((resto.take d).map (fun r => r.lluvia)).sum,
             fechaCorte := (((d0 :: resto).get? d).map (fun r => r.fecha)).getD
               ((d0 :: resto).getLastD d0).fecha,
             mpio := d0.municipio, depto := d0.departamento } := by
    intro d hd
    rw [hlookup d, hrecs]
    simp only [ventanas, List.mem_cons, List.not_mem_nil, or_false] at hd
    rw [List.find?_cons_of_neg _ (by
      simp only [Bool.and_eq_true, beq_iff_eq]
      rintro ⟨-, h0d⟩
      rcases hd with rfl | rfl | rfl | rfl | rfl <;> simp_all)]
    simp only [ventanas, List.map_cons, List.map_nil]
    rcases hd with rfl | rfl | rfl | rfl | rfl
    · exact List.find?_cons_of_pos _ (by simp)
    · rw [List.find?_cons_of_neg _ (by simp)]
      exact List.find?_cons_of_pos _ (by simp)
    · rw [List.find?_cons_of_neg _ (by simp), List.find?_cons_of_neg _ (by simp)]
      exact List.find?_cons_of_pos _ (by simp)
    · rw [List.find?_cons_of_neg _ (by simp), List.find?_cons_of_neg _ (by simp),
        List.find?_cons_of_neg _ (by simp)]
      exact List.find?_cons_of_pos _ (by simp)
    · rw [List.find?_cons_of_neg _ (by simp), List.find?_cons_of_neg _ (by simp),
        List.find?_cons_of_neg _ (by simp), List.find?_cons_of_neg _ (by simp)]
      exact List.find?_cons_of_pos _ (by simp)
  have hseq : sensorSeq df s = d0 :: resto := by
    unfold sensorSeq
    rw [← hwin_eq, hW]
  constructor
  · refine ⟨mkFeatureRow ((sensorsOf df).flatMap (fun s3 => recordsFor df s3)) s,
      ?_, rfl⟩
    rw [ht2]
    exact List.mem_map_of_mem _
      (List.mem_dedup.mpr (List.mem_map_of_mem _ hrec0mem))
  · intro row hrow hrows
    rw [ht2] at hrow
    rw [List.mem_map] at hrow
    rcases hrow with ⟨s2, hs2, rfl⟩
    have hs2s : s2 = s := hrows
    subst hs2s
    refine ⟨?_, ?_, ?_, ?_, ?_, ?_, ?_⟩
    · show ((lookupAcc _ s2 0).map (fun r => r.lluvia)).getD 0 = specDailyRain df s2
      rw [h0]
      unfold specDailyRain
      rw [hseq]
      rfl
    · intro rM2 hrM2df hrM2s hrM2max
      show ((lookupAcc _ s2 0).map (fun r => r.lluvia)).getD 0 = rM2.lluvia
      rw [h0]
      have hfe : rM2.fecha = rM.fecha := Option.some.inj (hrM2max ▸ hMax)
      have hrMrow : rM ∈ rowsOf df s2 :=
        List.mem_filter.mpr ⟨hrMdf, by rw [hrMs]; exact beq_self_eq_true s2⟩
      have hrM2row : rM2 ∈ rowsOf df s2 :=
        List.mem_filter.mpr ⟨hrM2df, by rw [hrM2s]; exact beq_self_eq_true s2⟩
      have : rM2 = rM := List.inj_on_of_nodup_map hnodup hrM2row hrMrow hfe
      rw [this, hd0]
      rfl
    · show ((lookupAcc _ s2 1).map (fun r => r.lluvia)).getD 0 = specAccum df s2 1
      rw [hacc 1 (by simp [ventanas])]
      unfold specAccum
      rw [hseq]
      rfl
    · show ((lookupAcc _ s2 2).map (fun r => r.lluvia)).getD 0 = specAccum df s2 2
      rw [hacc 2 (by simp [ventanas])]
      unfold specAccum
      rw [hseq]
      rfl
    · show ((lookupAcc _ s2 3).map (fun r => r.lluvia)).getD 0 = specAccum df s2 3
      rw [hacc 3 (by simp [ventanas])]
      unfold specAccum
      rw [hseq]
      rfl
    · show ((lookupAcc _ s2 15).map (fun r => r.lluvia)).getD 0 = specAccum df s2 15
      rw [hacc 15 (by simp [ventanas])]
      unfold specAccum
      rw [hseq]
      rfl
    · show ((lookupAcc _ s2 30).map (fun r => r.lluvia)).getD 0 = specAccum df s2 30
      rw [hacc 30 (by simp [ventanas])]
      unfold specAccum
      rw [hseq]
      rfl

/-- C1, witness: the scenario of the specification, a station on 4
consecutive days with values 10, 0, 5, 2 most recent first, yields
daily rain 10 and accumulations 0, 5 and 7 over 1, 2 and 3 days. -/
theorem C1_witness :
    (∃ r ∈ df4, r.codigoestacion = "A001" ∧ maxFecha df4 = some r.fecha) ∧
    ((rowsOf df4 "A001").map (fun r => r.fecha)).Nodup ∧
    (∀ t, generarFormatoModelo df4 = Except.ok t →
      (∃ row ∈ t, row.codigoestacion = "A001") ∧
      ∀ row ∈ t, row.codigoestacion = "A001" →
        row.dailyRain = specDailyRain df4 "A001" ∧
        (∀ rM ∈ df4, rM.codigoestacion = "A001" →
          maxFecha df4 = some rM.fecha → row.dailyRain = rM.lluvia) ∧
        row.accum1 = specAccum df4 "A001" 1 ∧
        row.accum2 = specAccum df4 "A001" 2 ∧
        row.accum3 = specAccum df4 "A001" 3 ∧
        row.accum15 = specAccum df4 "A001" 15 ∧
        row.accum30 = specAccum df4 "A001" 30) ∧
    specDailyRain df4 "A001" = 10 ∧
    specAccum df4 "A001" 1 = 0 ∧
    specAccum df4 "A001" 2 = 5 ∧
    specAccum df4 "A001" 3 = 7 := by
  have hseq : sensorSeq df4 "A001" =
      [{ codigoestacion := "A001", fecha := 3, municipio := some "M",
         departamento := some "D", lluvia := 10 },
       { codigoestacion := "A001", fecha := 2, municipio := some "M",
         departamento := some "D", lluvia := 0 },
       { codigoestacion := "A001", fecha := 1, municipio := some "M",
         departamento := some "D", lluvia := 5 },
       { codigoestacion := "A001", fecha := 0, municipio := some "M",
         departamento := some "D", lluvia := 2 }] := by decide
  refine ⟨by decide, by decide,
    C1_feature_values df4 "A001" (by decide) (by decide), by decide, ?_, ?_, ?_⟩
  · unfold specAccum
    rw [hseq]
    norm_num
  · unfold specAccum
    rw [hseq]
    norm_num
  · unfold specAccum
    rw [hseq]
    norm_num

/-! ### Claim C8: files left behind by an aborted run -/

set_option maxRecDepth 10000 in
theorem pipeline_a8_eval :
    ejecutarPipeline 0 e8 [exPoly] [] a8 a8 a8 =
      (Except.error "Sin datos para modelo", [OutFile.rawBackup]) := by
  have hc : (a8.countP (fun b => b.isEmpty)) = 0 := by decide
  have hd : daysRequested 0 e8 = 6 := by decide
  have hp : attemptPct 0 e8 a8 = 100 := by
    unfold attemptPct successPct
    rw [hc, hd]
    norm_num
  have hdec : procesarDatosDecision 0 e8 a8 a8 a8 =
      (RunDecision.normal, attemptData a8, (100 : ℚ)) := by
    unfold procesarDatosDecision stopResult
    rw [hp]
    rw [if_pos (by norm_num : (70:ℚ) ≤ 100)]
    rw [if_neg (by decide : ¬ attemptData a8 = [])]
  simp only [ejecutarPipeline]
  rw [hdec]
  rfl

/-- C8, counterexample.  The claim states that a run aborting before the
feature builder completes writes no output files.  A run whose retrieval
has full coverage but whose only station fails the recency rule aborts in
the feature builder, after the raw backup file was already written to the
output directory. -/
theorem C8_counterexample :
    (ejecutarPipeline 0 e8 [exPoly] [] a8 a8 a8).1 =
      Except.error "Sin datos para modelo" ∧
    (ejecutarPipeline 0 e8 [exPoly] [] a8 a8 a8).2 = [OutFile.rawBackup] ∧
    ([OutFile.rawBackup] : List OutFile) ≠ [] := by
  rw [pipeline_a8_eval]
  exact ⟨rfl, rfl, by decide⟩

/-- C8 (amended).  A run that aborts before the feature builder completes
writes none of the feature-table files (neither the dated csv, nor the
latest csv, nor the json summary): the only file it may leave behind is
the compressed raw-records backup. -/
theorem C8_no_feature_files (s e : ℕ) (region : List ((ℚ × ℚ) → Bool))
    (registry : List (String × Option String × Option String))
    (a0 a1 a2 : List (List Obs)) (m : String)
    (h : (ejecutarPipeline s e region registry a0 a1 a2).1 = Except.error m) :
    OutFile.featureCsv ∉ (ejecutarPipeline s e region registry a0 a1 a2).2 ∧
    OutFile.latestCsv ∉ (ejecutarPipeline s e region registry a0 a1 a2).2 ∧
    OutFile.resumenJson ∉ (ejecutarPipeline s e region registry a0 a1 a2).2 ∧
    ∀ f ∈ (ejecutarPipeline s e region registry a0 a1 a2).2,
      f = OutFile.rawBackup := by
  simp only [ejecutarPipeline] at h ⊢
  by_cases hab : (procesarDatosDecision s e a0 a1 a2).1 = RunDecision.aborted
  · simp only [if_pos hab] at h ⊢
    simp
  · simp only [if_neg hab] at h ⊢
    cases hm : procesarLluviaDiaria registry
        ((filtrarRegionAndina obsCols region
          (procesarDatosDecision s e a0 a1 a2).2.1).1) with
    | error msg =>
        simp only [hm] at h ⊢
        by_cases hdata : (procesarDatosDecision s e a0 a1 a2).2.1 = [] <;>
          simp [hdata]
    | ok table =>
        rw [hm] at h
        exact absurd h (by simp)

/-- C8, witness: the amended statement at the concrete aborting run. -/
theorem C8_witness :
    (ejecutarPipeline 0 e8 [exPoly] [] a8 a8 a8).1 =
      Except.error "Sin datos para modelo" ∧
    (OutFile.featureCsv ∉ (ejecutarPipeline 0 e8 [exPoly] [] a8 a8 a8).2 ∧
     OutFile.latestCsv ∉ (ejecutarPipeline 0 e8 [exPoly] [] a8 a8 a8).2 ∧
     OutFile.resumenJson ∉ (ejecutarPipeline 0 e8 [exPoly] [] a8 a8 a8).2 ∧
     ∀ f ∈ (ejecutarPipeline 0 e8 [exPoly] [] a8 a8 a8).2,
       f = OutFile.rawBackup) := by
  have h1 : (ejecutarPipeline 0 e8 [exPoly] [] a8 a8 a8).1 =
      Except.error "Sin datos para modelo" := by rw [pipeline_a8_eval]
  exact ⟨h1, C8_no_feature_files 0 e8 [exPoly] [] a8 a8 a8
    "Sin datos para modelo" h1⟩
